import Mathlib

/-!
Verification of the Royal 3 Pictures simulator (royal3pictures.py).

The file embeds the card model, the deck, the payout engine
(calculate_payout) and the simulation driver loop in Lean, and proves
or refutes the specification claims about them.
-/

/-- The suits of the playing cards (class Suit). -/
inductive Suit where
  | SPADES
  | DIAMONDS
  | HEARTS
  | CLUBS
  deriving DecidableEq, Repr

/-- The ranks of the playing cards (class Rank). -/
inductive Rank where
  | ACE
  | TWO
  | THREE
  | FOUR
  | FIVE
  | SIX
  | SEVEN
  | EIGHT
  | NINE
  | TEN
  | JACK
  | QUEEN
  | KING
  deriving DecidableEq, Repr

/-- Rank.is_face: true exactly for JACK, QUEEN and KING. -/
def Rank.is_face (r : Rank) : Bool :=
  match r with
  | Rank.JACK => true
  | Rank.QUEEN => true
  | Rank.KING => true
  | _ => false

/-- The numeric identity of a rank (the Python `Enum` value used by
`points`; face cards carry a string value there, never read by `points`,
so any value works for them — we use 0). -/
def Rank.value (r : Rank) : Nat :=
  match r with
  | Rank.ACE => 1
  | Rank.TWO => 2
  | Rank.THREE => 3
  | Rank.FOUR => 4
  | Rank.FIVE => 5
  | Rank.SIX => 6
  | Rank.SEVEN => 7
  | Rank.EIGHT => 8
  | Rank.NINE => 9
  | Rank.TEN => 10
  | Rank.JACK => 0
  | Rank.QUEEN => 0
  | Rank.KING => 0

/-- Rank.points: 0 for a face card, else the rank's numeric value. -/
def Rank.points (r : Rank) : Nat :=
  if r.is_face then 0 else r.value

/-- The four outcome types of a trial (class OutcomeType). -/
inductive OutcomeType where
  | EVEN_MONEY
  | HALF_MONEY
  | LOSS
  | PUSH
  deriving DecidableEq, Repr

/-- A playing card (class Card): a rank paired with a suit. -/
structure Card where
  rank : Rank
  suit : Suit
  deriving DecidableEq, Repr

/-- SUITS = list(Suit). -/
def SUITS : List Suit :=
  [Suit.SPADES, Suit.DIAMONDS, Suit.HEARTS, Suit.CLUBS]

/-- RANKS = list(Rank). -/
def RANKS : List Rank :=
  [Rank.ACE, Rank.TWO, Rank.THREE, Rank.FOUR, Rank.FIVE, Rank.SIX,
   Rank.SEVEN, Rank.EIGHT, Rank.NINE, Rank.TEN,
   Rank.JACK, Rank.QUEEN, Rank.KING]

/-- DECK: one card per (rank, suit) pair of itertools.product(RANKS, SUITS),
rank-major. -/
def DECK : List Card :=
  RANKS.flatMap (fun r => SUITS.map (fun s => Card.mk r s))

/-- Number of face cards ("pictures") in a hand
(len(list(filter(lambda x: x.rank.is_face(), hand)))). -/
def countPictures (hand : List Card) : Nat :=
  (hand.filter (fun x => x.rank.is_face)).length

/-- Point total of a hand: sum(x.rank.points() for x in hand) % 10. -/
def handPoints (hand : List Card) : Nat :=
  (hand.map (fun x => x.rank.points)).sum % 10

/-- calculate_payout (royal3pictures.py lines 94-122). The wager (a Python
float) is modelled as a rational number. -/
def calculate_payout (wager : ℚ) (player_hand dealer_hand : List Card) :
    ℚ × OutcomeType :=
  let player_pictures := countPictures player_hand
  let dealer_pictures := countPictures dealer_hand
  let player_points := handPoints player_hand
  let dealer_points := handPoints dealer_hand
  if player_pictures > dealer_pictures then
    (wager * 2, OutcomeType.EVEN_MONEY)
  else if dealer_pictures > player_pictures then
    (0, OutcomeType.LOSS)
  else if player_points > dealer_points then
    (if player_points ≠ 6 then (wager * 2, OutcomeType.EVEN_MONEY)
     else (wager * (3 / 2), OutcomeType.HALF_MONEY))
  else if dealer_points > player_points then
    (0, OutcomeType.LOSS)
  else
    (wager, OutcomeType.PUSH)

/-- The deal of run_iteration (lines 129-131): after the shuffle, the player
hand is DECK[0:3] and the dealer hand is DECK[3:6] of the shuffled order. -/
def deal (shuffled : List Card) : List Card × List Card :=
  (shuffled.take 3, (shuffled.drop 3).take 3)

/-- The outcome-count dictionary (outcome_times, line 158): a Python dict,
modelled as a partial map; an absent key reads as none (a KeyError). -/
abbrev OutcomeDict : Type := OutcomeType → Option Nat

/-- The initial empty dictionary of line 158. -/
def emptyDict : OutcomeDict := fun _ => none

/-- Lines 166-169: `outcome_times[outcome] += 1`, with the KeyError branch
setting the count to 1 when the key is absent. -/
def recordOutcome (times : OutcomeDict) (o : OutcomeType) : OutcomeDict :=
  fun k =>
    if k = o then
      some (match times o with
            | some n => n + 1
            | none => 1)
    else times k

/-- The dictionary after a run whose trials produced the given outcomes
in order. -/
def outcome_times (outcomes : List OutcomeType) : OutcomeDict :=
  outcomes.foldl recordOutcome emptyDict

/-- Sum of the counts stored for the four outcome types (an absent key
contributes 0). -/
def totalCount (times : OutcomeDict) : Nat :=
  (times OutcomeType.EVEN_MONEY).getD 0 + (times OutcomeType.HALF_MONEY).getD 0
    + (times OutcomeType.LOSS).getD 0 + (times OutcomeType.PUSH).getD 0

/-- Python true division over the rationals: raises ZeroDivisionError when
the divisor is zero, modelled as none. -/
def pydiv (a b : ℚ) : Option ℚ :=
  if b = 0 then none else some (a / b)

/-- Line 171: `edge = (initial_bankroll - current_bankroll) / initial_bankroll`,
an unguarded division. -/
def house_edge (initial_bankroll current_bankroll : ℚ) : Option ℚ :=
  pydiv (initial_bankroll - current_bankroll) initial_bankroll

/-- Lines 181-184: a per-outcome rate `count / total` where total = runs,
an unguarded division. -/
def outcome_rate (count total : ℚ) : Option ℚ :=
  pydiv count total

/-- One iteration of the driver loop (lines 160-169): debit the wager,
deal from the given shuffled deck, credit the payout and record the
outcome. The state is (current_bankroll, outcome_times). -/
def run_trial (wager : ℚ) (state : ℚ × OutcomeDict) (shuffled : List Card) :
    ℚ × OutcomeDict :=
  let hands := deal shuffled
  let result := calculate_payout wager hands.1 hands.2
  (state.1 - wager + result.1, recordOutcome state.2 result.2)

/-- The driver loop (lines 160-169), one trial per shuffled deck in the
list; the loop `for i in range(0, runs)` supplies one shuffle per
iteration, so the list has max(runs, 0) entries. No parameter check of any
kind precedes the loop. -/
def run_simulation (wager bankroll : ℚ) (shuffles : List (List Card)) :
    ℚ × OutcomeDict :=
  shuffles.foldl (run_trial wager) (bankroll, emptyDict)

/-- The number of loop iterations of `for i in range(0, runs)`:
max(runs, 0). -/
def trials_attempted (runs : ℤ) : Nat :=
  runs.toNat

/-- The payout rule table exactly as worded in the specification
(section 4.3, steps 1-7), written down independently of
calculate_payout for the refinement claim C1. -/
def resolveSpecTable (wager : ℚ) (player_hand dealer_hand : List Card) :
    ℚ × OutcomeType :=
  let pp := countPictures player_hand
  let dp := countPictures dealer_hand
  if pp > dp then
    (2 * wager, OutcomeType.EVEN_MONEY)
  else if dp > pp then
    (0, OutcomeType.LOSS)
  else
    let ppt := handPoints player_hand
    let dpt := handPoints dealer_hand
    if ppt > dpt then
      (if ppt = 6 then ((3 / 2) * wager, OutcomeType.HALF_MONEY)
       else (2 * wager, OutcomeType.EVEN_MONEY))
    else if dpt > ppt then
      (0, OutcomeType.LOSS)
    else
      (wager, OutcomeType.PUSH)

/-- Sample hand: no pictures, 6 points. -/
def handSixA : List Card :=
  [Card.mk Rank.ACE Suit.SPADES, Card.mk Rank.TWO Suit.DIAMONDS,
   Card.mk Rank.THREE Suit.HEARTS]

/-- Sample hand: no pictures, 6 points, distinct cards from handSixA. -/
def handSixB : List Card :=
  [Card.mk Rank.TWO Suit.CLUBS, Card.mk Rank.THREE Suit.SPADES,
   Card.mk Rank.ACE Suit.DIAMONDS]

/-- Sample hand: no pictures, 4 points. -/
def handFour : List Card :=
  [Card.mk Rank.ACE Suit.CLUBS, Card.mk Rank.ACE Suit.HEARTS,
   Card.mk Rank.TWO Suit.SPADES]

/-- Sample hand: three pictures, 0 points. -/
def handFaces : List Card :=
  [Card.mk Rank.KING Suit.SPADES, Card.mk Rank.QUEEN Suit.DIAMONDS,
   Card.mk Rank.JACK Suit.HEARTS]


/-- C1: for every non-negative wager and every pair of 3-card hands,
calculate_payout returns exactly what the specification's rule table
(steps 1-7, in strict order) prescribes. -/
theorem payout_implements_spec_table (w : ℚ) (p d : List Card)
    (hw : 0 ≤ w) (hp : p.length = 3) (hd : d.length = 3) :
    calculate_payout w p d = resolveSpecTable w p d := by
  simp only [calculate_payout, resolveSpecTable]
  split_ifs <;> simp [Prod.ext_iff, mul_comm] <;> omega

/-- C1 witness: the refinement instantiated at wager 1 and two concrete
3-card hands. -/
theorem payout_implements_spec_table_witness :
    calculate_payout 1 handSixA handFour = resolveSpecTable 1 handSixA handFour :=
  payout_implements_spec_table 1 handSixA handFour (by norm_num) rfl rfl

/-- C3: calculate_payout yields HALF_MONEY exactly when the picture counts
are tied, the player's point total strictly exceeds the dealer's, and the
player's point total is exactly 6; and in that case the payout is 1.5
times the wager. -/
theorem half_money_characterisation (w : ℚ) (p d : List Card)
    (hw : 0 ≤ w) (hp : p.length = 3) (hd : d.length = 3) :
    ((calculate_payout w p d).2 = OutcomeType.HALF_MONEY ↔
      countPictures p = countPictures d ∧
      handPoints d < handPoints p ∧ handPoints p = 6) ∧
    ((calculate_payout w p d).2 = OutcomeType.HALF_MONEY →
      (calculate_payout w p d).1 = w * (3 / 2)) := by
  simp only [calculate_payout]
  split_ifs <;> simp <;> omega

/-- C3 witness: player hand totalling 6 with no pictures against a dealer
hand totalling 4 with no pictures. -/
theorem half_money_characterisation_witness :
    ((calculate_payout 1 handSixA handFour).2 = OutcomeType.HALF_MONEY ↔
      countPictures handSixA = countPictures handFour ∧
      handPoints handFour < handPoints handSixA ∧ handPoints handSixA = 6) ∧
    ((calculate_payout 1 handSixA handFour).2 = OutcomeType.HALF_MONEY →
      (calculate_payout 1 handSixA handFour).1 = 1 * (3 / 2)) :=
  half_money_characterisation 1 handSixA handFour (by norm_num) rfl rfl

/-- C4: when the player hand has strictly fewer pictures than the dealer
hand, calculate_payout returns (0, LOSS), whatever the point totals are. -/
theorem pictures_dominate (w : ℚ) (p d : List Card)
    (hw : 0 ≤ w) (hp : p.length = 3) (hd : d.length = 3)
    (hpic : countPictures p < countPictures d) :
    calculate_payout w p d = (0, OutcomeType.LOSS) := by
  have h1 : ¬ countPictures d < countPictures p := by omega
  simp [calculate_payout, h1, hpic]

/-- C4 witness: a player hand with 0 pictures and 6 points loses to a
dealer hand with 3 pictures and 0 points. -/
theorem pictures_dominate_witness :
    calculate_payout 1 handSixA handFaces = (0, OutcomeType.LOSS) :=
  pictures_dominate 1 handSixA handFaces (by norm_num) rfl rfl (by decide)

/-- C7: a tie in both pictures and points yields PUSH with the stake
returned unchanged. -/
theorem push_round_trip (w : ℚ) (p d : List Card)
    (hw : 0 ≤ w) (hp : p.length = 3) (hd : d.length = 3)
    (hpic : countPictures p = countPictures d)
    (hpts : handPoints p = handPoints d) :
    calculate_payout w p d = (w, OutcomeType.PUSH) := by
  have h1 : ¬ countPictures d < countPictures p := by omega
  have h2 : ¬ countPictures p < countPictures d := by omega
  have h3 : ¬ handPoints d < handPoints p := by omega
  have h4 : ¬ handPoints p < handPoints d := by omega
  simp [calculate_payout, h1, h2, h3, h4]

/-- C7 witness: two disjoint pictureless hands both totalling 6 push at
wager 1. -/
theorem push_round_trip_witness :
    calculate_payout 1 handSixA handSixB = (1, OutcomeType.PUSH) :=
  push_round_trip 1 handSixA handSixB (by norm_num) rfl rfl (by decide) (by decide)

/-- C8: over well-formed 3-card hands calculate_payout is total, returns
one of the four OutcomeType values, and a payout among 0, wager,
1.5 times wager and 2 times wager. -/
theorem resolve_total_range (w : ℚ) (p d : List Card)
    (hw : 0 ≤ w) (hp : p.length = 3) (hd : d.length = 3) :
    ((calculate_payout w p d).1 = 0 ∨ (calculate_payout w p d).1 = w ∨
     (calculate_payout w p d).1 = w * (3 / 2) ∨
     (calculate_payout w p d).1 = w * 2) ∧
    ((calculate_payout w p d).2 = OutcomeType.EVEN_MONEY ∨
     (calculate_payout w p d).2 = OutcomeType.HALF_MONEY ∨
     (calculate_payout w p d).2 = OutcomeType.LOSS ∨
     (calculate_payout w p d).2 = OutcomeType.PUSH) := by
  simp only [calculate_payout]
  split_ifs <;> simp

/-- C8 witness: the range property instantiated at wager 1 and two
concrete 3-card hands. -/
theorem resolve_total_range_witness :
    ((calculate_payout 1 handSixA handFour).1 = 0 ∨
     (calculate_payout 1 handSixA handFour).1 = 1 ∨
     (calculate_payout 1 handSixA handFour).1 = 1 * (3 / 2) ∨
     (calculate_payout 1 handSixA handFour).1 = 1 * 2) ∧
    ((calculate_payout 1 handSixA handFour).2 = OutcomeType.EVEN_MONEY ∨
     (calculate_payout 1 handSixA handFour).2 = OutcomeType.HALF_MONEY ∨
     (calculate_payout 1 handSixA handFour).2 = OutcomeType.LOSS ∨
     (calculate_payout 1 handSixA handFour).2 = OutcomeType.PUSH) :=
  resolve_total_range 1 handSixA handFour (by norm_num) rfl rfl

/-- C10: calculate_payout never checks hand sizes: it is total over hands
of any length, the payout always lies in the admissible set, and on two
empty hands every wager is returned as a PUSH. -/
theorem no_hand_size_check (w : ℚ) (p d : List Card) :
    calculate_payout w [] [] = (w, OutcomeType.PUSH) ∧
    ((calculate_payout w p d).1 = 0 ∨ (calculate_payout w p d).1 = w ∨
     (calculate_payout w p d).1 = w * (3 / 2) ∨
     (calculate_payout w p d).1 = w * 2) := by
  constructor
  · simp [calculate_payout, countPictures, handPoints]
  · simp only [calculate_payout]
    split_ifs <;> simp

/-- Recording one outcome raises the four-key total by exactly one,
whether or not the key was already present. -/
lemma totalCount_recordOutcome (d : OutcomeDict) (o : OutcomeType) :
    totalCount (recordOutcome d o) = totalCount d + 1 := by
  cases o <;> cases hE : d OutcomeType.EVEN_MONEY <;>
    cases hH : d OutcomeType.HALF_MONEY <;> cases hL : d OutcomeType.LOSS <;>
    cases hP : d OutcomeType.PUSH <;>
    simp [totalCount, recordOutcome, hE, hH, hL, hP] <;> omega

/-- A key is present after recording exactly when it was recorded or was
already present. -/
lemma isSome_recordOutcome (d : OutcomeDict) (o k : OutcomeType) :
    ((recordOutcome d o) k).isSome ↔ k = o ∨ (d k).isSome := by
  by_cases h : k = o <;> simp [recordOutcome, h]

/-- Folding a list of outcomes into a dictionary adds its length to the
four-key total. -/
lemma totalCount_foldl (os : List OutcomeType) (d : OutcomeDict) :
    totalCount (os.foldl recordOutcome d) = totalCount d + os.length := by
  induction os generalizing d with
  | nil => simp
  | cons o os ih =>
    rw [List.foldl_cons, ih, totalCount_recordOutcome, List.length_cons]
    omega

/-- A key is present in the folded dictionary exactly when it occurs in
the outcome list or was present initially. -/
lemma isSome_foldl (os : List OutcomeType) (d : OutcomeDict) (k : OutcomeType) :
    ((os.foldl recordOutcome d) k).isSome ↔ k ∈ os ∨ (d k).isSome := by
  induction os generalizing d with
  | nil => simp
  | cons o os ih =>
    rw [List.foldl_cons, ih, isSome_recordOutcome]
    simp [List.mem_cons]
    tauto

/-- C2 counterexample: after a completed run of zero trials the statistics
dictionary has no entry for EVEN_MONEY, so reading that count fails with a
KeyError — refuting that all four keys are always present. -/
theorem outcome_times_key_missing :
    ¬ (outcome_times [] OutcomeType.EVEN_MONEY).isSome := by decide

/-- C2 (amended): after a completed run the statistics dictionary holds a
key exactly for each outcome that occurred at least once (reading the
count of an outcome that never occurred fails), and the stored counts sum
exactly to the number of trials. -/
theorem outcome_times_spec (os : List OutcomeType) :
    totalCount (outcome_times os) = os.length ∧
    ∀ k : OutcomeType, (outcome_times os k).isSome ↔ k ∈ os := by
  constructor
  · rw [outcome_times, totalCount_foldl]
    simp [totalCount, emptyDict]
  · intro k
    rw [outcome_times, isSome_foldl]
    simp [emptyDict]

/-- C5 counterexample: the house-edge and rate computations are not
guarded: with a zero initial bankroll the house-edge division raises
ZeroDivisionError, and with zero runs the rate division raises
ZeroDivisionError, instead of producing an undefined/NaN value. -/
theorem division_unguarded :
    ¬ (house_edge 0 100).isSome ∧ ¬ (outcome_rate 5 0).isSome := by
  constructor <;> decide

/-- C5 (amended): the divisions carry no guard at all: the house-edge
computation produces a value exactly when the initial bankroll is nonzero
and the rate computation exactly when runs is nonzero; on a zero divisor
each raises ZeroDivisionError (crashes) rather than reporting NaN. -/
theorem house_edge_rate_defined_iff (i f c r : ℚ) :
    ((house_edge i f).isSome ↔ i ≠ 0) ∧ ((outcome_rate c r).isSome ↔ r ≠ 0) := by
  constructor
  · by_cases hi : i = 0 <;> simp [house_edge, pydiv, hi]
  · by_cases hr : r = 0 <;> simp [outcome_rate, pydiv, hr]

/-- One driver-loop iteration raises the outcome total by exactly one. -/
lemma totalCount_run_trial (w : ℚ) (st : ℚ × OutcomeDict) (s : List Card) :
    totalCount (run_trial w st s).2 = totalCount st.2 + 1 := by
  simp [run_trial, totalCount_recordOutcome]

/-- The driver loop records exactly one outcome per supplied shuffle. -/
lemma totalCount_foldl_trials (w : ℚ) (ss : List (List Card))
    (st : ℚ × OutcomeDict) :
    totalCount ((ss.foldl (run_trial w) st).2) = totalCount st.2 + ss.length := by
  induction ss generalizing st with
  | nil => simp
  | cons s ss ih =>
    rw [List.foldl_cons, ih, totalCount_run_trial, List.length_cons]
    omega

/-- C6 counterexample: with the invalid parameters runs = 1 and
wager = -1 the driver still executes a trial (one outcome is recorded) —
refuting that invalid parameters are rejected before any trial executes. -/
theorem invalid_params_trial_executes :
    ¬ (totalCount (run_simulation (-1) 0 [DECK]).2 = 0) := by
  simp only [run_simulation]
  rw [totalCount_foldl_trials]
  simp [totalCount, emptyDict]

/-- C6 (amended): the program performs no boundary validation of its
parameters: even with a negative wager the driver executes exactly
max(runs, 0) trials — one per loop iteration of range(0, runs) — and for
runs ≤ 0 the loop body simply never executes, with no configuration error
surfaced anywhere. -/
theorem no_parameter_validation (runs : ℤ) (w b : ℚ)
    (ss : List (List Card)) (hw : w < 0)
    (hss : ss.length = trials_attempted runs) :
    totalCount (run_simulation w b ss).2 = trials_attempted runs := by
  simp only [run_simulation]
  rw [totalCount_foldl_trials]
  simp [totalCount, emptyDict, hss]

/-- C6 witness: runs = 1 with wager = -1 executes exactly one trial. -/
theorem no_parameter_validation_witness :
    totalCount (run_simulation (-1) 0 [DECK]).2 = trials_attempted 1 :=
  no_parameter_validation 1 (-1) 0 [DECK] (by norm_num) rfl

/-- The 52-card deck contains no duplicate card. -/
lemma DECK_nodup : DECK.Nodup := by decide

/-- C9: for any shuffled order of the 52-card deck, the dealt player hand
(cards 0-2) and dealer hand (cards 3-5) share no card. -/
theorem hands_disjoint (shuffled : List Card) (h : shuffled.Perm DECK) :
    List.Disjoint (deal shuffled).1 (deal shuffled).2 := by
  have hn : shuffled.Nodup := (h.nodup_iff).mpr DECK_nodup
  have hsplit : shuffled.take 3 ++ shuffled.drop 3 = shuffled :=
    List.take_append_drop 3 shuffled
  have hnd : (shuffled.take 3 ++ shuffled.drop 3).Nodup := by
    rw [hsplit]; exact hn
  have hdisj := List.disjoint_of_nodup_append hnd
  intro c hc hcd
  simp only [deal] at hc hcd
  exact hdisj hc (List.take_subset 3 _ hcd)

/-- C9 witness: the disjointness instantiated at the identity shuffle of
the freshly constructed deck. -/
theorem hands_disjoint_witness :
    List.Disjoint (deal DECK).1 (deal DECK).2 :=
  hands_disjoint DECK (List.Perm.refl DECK)
